import Mathlib

/-!
Verification of the SmartBusTracking ESP32 telemetry node
(`src/esp32_bus_tracker.ino`): a shallow embedding of the NMEA sentence
parser, the position state, the telemetry scheduler and the MQTT
reconnect state machine, together with proofs of the behavioural
properties stated in the specification.

Modelling conventions:
- Arduino `String` values are modelled as `List Char`.
- `float` arithmetic is modelled exactly over `ℚ`; the numeric claims are
  exact at this level (the spec's "within floating tolerance").
- `unsigned long` (32-bit) subtraction in the scheduler is modelled with
  arithmetic modulo `2 ^ 32`.
- The blocking MQTT reconnect loop is modelled over the list of handshake
  outcomes (`true` = successful connect) it observes.
-/

set_option allowUnsafeReducibility true

attribute [semireducible] Rat.add Rat.mul Rat.sub Rat.inv

/-- Number of comma delimiters in a line (uncapped). -/
def commaTotal (s : List Char) : ℕ :=
  (s.filter (fun c => decide (c = ','))).length

/-- Positions of the commas of `s`, at most `cap` of them, scanning from
index `i`.  Mirrors the index-collecting loop
`for (i...) if (nmea[i] == ',') idx[cnt++] = i;` bounded by `cnt < cap`. -/
def commaIdxAux : List Char → ℕ → ℕ → List ℕ
  | [], _, _ => []
  | _ :: _, _, 0 => []
  | c :: rest, i, Nat.succ k =>
    if c = ',' then i :: commaIdxAux rest (i + 1) k
    else commaIdxAux rest (i + 1) (Nat.succ k)

/-- Comma positions of `s` (first `cap` of them), as the parser computes
them into `idx[]`. -/
def commaIdx (s : List Char) (cap : ℕ) : List ℕ :=
  commaIdxAux s 0 cap

/-- Arduino `String::substring(a, b)`: the characters at indices
`[a, b)`, clamped to the string.  All call sites in the parser use
`a = idx[k] + 1 ≤ b = idx[k+1]`. -/
def substr (s : List Char) (a b : ℕ) : List Char :=
  (s.take b).drop a

/-- Value of a run of decimal digits (most significant first). -/
def digitsToNat (s : List Char) : ℕ :=
  s.foldl (fun acc c => acc * 10 + (c.toNat - 48)) 0

/-- Unsigned decimal parse: integer part, optional `.` and fraction,
stopping at the first character that fits neither.  Core of Arduino
`String::toFloat` (`atof`) on the plain-decimal notation NMEA uses. -/
def toFloatCore (s : List Char) : ℚ :=
  let ip := s.takeWhile Char.isDigit
  match s.dropWhile Char.isDigit with
  | '.' :: r =>
    let fp := r.takeWhile Char.isDigit
    (digitsToNat ip : ℚ) + (digitsToNat fp : ℚ) / 10 ^ fp.length
  | _ => (digitsToNat ip : ℚ)

/-- Arduino `String::toFloat`: optional sign then `toFloatCore`; a string
with no leading numeric text parses to `0`. -/
def toFloat (s : List Char) : ℚ :=
  match s with
  | '-' :: rest => -(toFloatCore rest)
  | '+' :: rest => toFloatCore rest
  | _ => toFloatCore s

/-- Arduino `String::toInt` (`atol`): optional sign then leading decimal
digits; no digits parses to `0`. -/
def toInt (s : List Char) : ℤ :=
  match s with
  | '-' :: rest => -(digitsToNat (rest.takeWhile Char.isDigit) : ℤ)
  | '+' :: rest => (digitsToNat (rest.takeWhile Char.isDigit) : ℤ)
  | _ => (digitsToNat (s.takeWhile Char.isDigit) : ℤ)

/-- Truncation toward zero, the effect of the C cast `int(val / 100)` on
a `float`. -/
def truncQ (q : ℚ) : ℤ :=
  if 0 ≤ q then ⌊q⌋ else ⌈q⌉

/-- Degrees-minutes concatenated value to decimal degrees:
`int deg = int(val / 100); deg + (val - deg * 100) / 60.0`. -/
def degMinToDeg (val : ℚ) : ℚ :=
  let deg : ℤ := truncQ (val / 100)
  (deg : ℚ) + (val - (deg : ℚ) * 100) / 60

/-- GPS data record (`struct GPSData`), with the sketch's zero/false
initial values carried by `gpsData0` below. -/
structure GPSData where
  latitude : ℚ
  longitude : ℚ
  speed : ℚ
  heading : ℚ
  fix : Bool
deriving DecidableEq

/-- Initial value of the global `gpsData`. -/
def gpsData0 : GPSData := ⟨0, 0, 0, 0, false⟩

/-- Field between commas 1 and 2 of a GPRMC sentence: the validity flag
`nmea.substring(idx[1] + 1, idx[2])`. -/
def rmcStatus (nmea : List Char) : List Char :=
  substr nmea ((commaIdx nmea 12).getD 1 0 + 1) ((commaIdx nmea 12).getD 2 0)

/-- Latitude field `nmea.substring(idx[2] + 1, idx[3])`. -/
def rmcLat (nmea : List Char) : List Char :=
  substr nmea ((commaIdx nmea 12).getD 2 0 + 1) ((commaIdx nmea 12).getD 3 0)

/-- Latitude hemisphere field `nmea.substring(idx[3] + 1, idx[4])`. -/
def rmcLatHemi (nmea : List Char) : List Char :=
  substr nmea ((commaIdx nmea 12).getD 3 0 + 1) ((commaIdx nmea 12).getD 4 0)

/-- Longitude field `nmea.substring(idx[4] + 1, idx[5])`. -/
def rmcLon (nmea : List Char) : List Char :=
  substr nmea ((commaIdx nmea 12).getD 4 0 + 1) ((commaIdx nmea 12).getD 5 0)

/-- Longitude hemisphere field `nmea.substring(idx[5] + 1, idx[6])`. -/
def rmcLonHemi (nmea : List Char) : List Char :=
  substr nmea ((commaIdx nmea 12).getD 5 0 + 1) ((commaIdx nmea 12).getD 6 0)

/-- Speed-over-ground field `nmea.substring(idx[6] + 1, idx[7])`. -/
def rmcSpeed (nmea : List Char) : List Char :=
  substr nmea ((commaIdx nmea 12).getD 6 0 + 1) ((commaIdx nmea 12).getD 7 0)

/-- `parseGPRMC`: collect up to 12 comma indices, reject under 9; a
validity flag other than `A` only clears `fix`; otherwise set `fix` and
update each of latitude, longitude and speed exactly when its field is
non-empty. -/
def parseGPRMC (nmea : List Char) (g : GPSData) : GPSData :=
  if (commaIdx nmea 12).length < 9 then g
  else if rmcStatus nmea ≠ ['A'] then { g with fix := false }
  else
    let g1 := { g with fix := true }
    let g2 :=
      if rmcLat nmea ≠ [] then
        let l := degMinToDeg (toFloat (rmcLat nmea))
        { g1 with latitude := if rmcLatHemi nmea = ['S'] then -l else l }
      else g1
    let g3 :=
      if rmcLon nmea ≠ [] then
        let l := degMinToDeg (toFloat (rmcLon nmea))
        { g2 with longitude := if rmcLonHemi nmea = ['W'] then -l else l }
      else g2
    if rmcSpeed nmea ≠ [] then
      { g3 with speed := toFloat (rmcSpeed nmea) * (1852 / 1000) }
    else g3

/-- Satellite-count field of a GPGGA sentence,
`nmea.substring(idx[6] + 1, idx[7])`. -/
def ggaSats (nmea : List Char) : List Char :=
  substr nmea ((commaIdx nmea 15).getD 6 0 + 1) ((commaIdx nmea 15).getD 7 0)

/-- `parseGPGGA`: collect up to 15 comma indices, reject under 8; store
the satellite-count field when non-empty.  Touches nothing but
`satelliteCount`. -/
def parseGPGGA (nmea : List Char) (sc : ℤ) : ℤ :=
  if (commaIdx nmea 15).length < 8 then sc
  else if ggaSats nmea ≠ [] then toInt (ggaSats nmea) else sc

/-- Connection lifecycle of the MQTT transport (spec §4.5). -/
inductive ConnState
  | Disconnected
  | Connecting
  | Connected
deriving DecidableEq

/-- Full mutable state of the node: the GPS record, the satellite count,
the scheduler's `lastMQTTSend` stamp, and the transport's connection
state. -/
structure SysState where
  gps : GPSData
  satelliteCount : ℤ
  lastMQTTSend : ℕ
  conn : ConnState
deriving DecidableEq

/-- The `$GPRMC` dispatch tag of `readGPS`. -/
def gprmcTag : List Char := ['$', 'G', 'P', 'R', 'M', 'C']

/-- The `$GPGGA` dispatch tag of `readGPS`. -/
def gpggaTag : List Char := ['$', 'G', 'P', 'G', 'G', 'A']

/-- One line of `readGPS`: dispatch on the sentence tag; any other line
is ignored. -/
def processLine (line : List Char) (st : SysState) : SysState :=
  if gprmcTag.isPrefixOf line then { st with gps := parseGPRMC line st.gps }
  else if gpggaTag.isPrefixOf line then
    { st with satelliteCount := parseGPGGA line st.satelliteCount }
  else st

/-- Telemetry frame published by `sendTelemetry`: the JSON document's
fields `latitude, longitude, speed, heading, timestamp`. -/
structure TelemetryFrame where
  latitude : ℚ
  longitude : ℚ
  speed : ℚ
  heading : ℚ
  timestamp : ℕ
deriving DecidableEq

/-- Snapshot of the GPS record stamped with the device uptime `millis()`,
as `sendTelemetry` serialises it. -/
def telemetryFrame (g : GPSData) (now : ℕ) : TelemetryFrame :=
  ⟨g.latitude, g.longitude, g.speed, g.heading, now⟩

/-- `sendTelemetry`: build and publish the frame.  The function body
contains no connection-lifecycle call: `client.publish` fails silently
when unconnected and never initiates a reconnect, so the connection
state passes through unchanged. -/
def sendTelemetry (g : GPSData) (c : ConnState) (now : ℕ) :
    TelemetryFrame × ConnState :=
  (telemetryFrame g now, c)

/-- `const unsigned long SEND_INTERVAL = 5000`. -/
def SEND_INTERVAL : ℕ := 5000

/-- Modulus of `unsigned long` arithmetic on the target (32-bit). -/
def ulongMod : ℕ := 2 ^ 32

/-- `millis() - lastMQTTSend` under 32-bit unsigned wraparound. -/
def elapsedMs (now last : ℕ) : ℕ :=
  (now % ulongMod + (ulongMod - last % ulongMod)) % ulongMod

/-- The scheduler fragment of `loop` (lines 91-94): when at least
`SEND_INTERVAL` ms have elapsed since the previous fire, send a frame
through `sendTelemetry` and restamp `lastMQTTSend`; otherwise do
nothing. -/
def loopTick (st : SysState) (now : ℕ) : SysState × Option TelemetryFrame :=
  if SEND_INTERVAL ≤ elapsedMs now st.lastMQTTSend then
    let r := sendTelemetry st.gps st.conn now
    ({ st with lastMQTTSend := now, conn := r.2 }, some r.1)
  else (st, none)

/-- State trace of `reconnectMQTT` over the list of handshake outcomes
(`true` = `client.connect` succeeded): the state after each attempt.
Each failed attempt leaves the transport still connecting (after a
`delay(2000)`); the first success leaves it connected and exits the
`while` loop. -/
def reconnectTrace : List Bool → List ConnState
  | [] => []
  | true :: _ => [ConnState.Connected]
  | false :: rest => ConnState.Connecting :: reconnectTrace rest

/-- Total fixed-delay time spent by `reconnectMQTT` before its first
successful handshake: `delay(2000)` per failed attempt. -/
def reconnectDelay : List Bool → ℕ
  | [] => 0
  | true :: _ => 0
  | false :: rest => 2000 + reconnectDelay rest

/-- Resulting connection state of `reconnectMQTT` over a (prefix of a)
list of handshake outcomes: connected at the first success, still
connecting while every observed attempt has failed. -/
def reconnectResult : List Bool → ConnState
  | [] => ConnState.Connecting
  | true :: _ => ConnState.Connected
  | false :: rest => reconnectResult rest

/-- The connection-management head of `loop` (line 86):
`if (!client.connected()) reconnectMQTT();`. -/
def loopConnStart (c : ConnState) (outs : List Bool) : ConnState :=
  if c = ConnState.Connected then c else reconnectResult outs

/-- A GPRMC sentence whose validity flag is `V` (void). -/
def rmcInvalidLine : List Char := "$GPRMC,123519,V,,,,,,,,".toList

/-- A complete valid GPRMC sentence (the spec's worked example values:
latitude `4807.038,N`, speed `10.0` knots). -/
def rmcFullLine : List Char :=
  "$GPRMC,123519,A,4807.038,N,01131.000,E,10.0,084.4,230394,,,".toList

/-- A valid-flag GPRMC sentence whose latitude, longitude and speed
fields are all empty. -/
def rmcEmptyFieldsLine : List Char := "$GPRMC,123519,A,,,,,,,".toList

/-- A complete GPGGA sentence reporting 8 satellites. -/
def ggaFullLine : List Char :=
  "$GPGGA,123519,4807.038,N,01131.000,E,1,08,0.9,545.4,M,46.9,M,,".toList

/-- A truncated GPGGA sentence with only 4 commas. -/
def ggaShortLine : List Char := "$GPGGA,123519,4807.038,N,01131".toList

/-- A non-sentence garbage line with no commas at all. -/
def garbageLine : List Char := "x#!garbage@@".toList

/-- A GPS record with distinctive non-default values, used to observe
which fields a parse leaves unchanged. -/
def gTest : GPSData := ⟨1, 2, 3, 4, true⟩

/- ===================== theorems ===================== -/

/-- The capped comma scan never finds more commas than the line holds. -/
theorem commaIdxAux_length_le (s : List Char) :
    ∀ i cap, (commaIdxAux s i cap).length ≤ commaTotal s := by
  induction s with
  | nil => intro i cap; cases cap <;> simp [commaIdxAux, commaTotal]
  | cons c rest ih =>
    intro i cap
    cases cap with
    | zero => simp [commaIdxAux, commaTotal]
    | succ k =>
      by_cases h : c = ','
      · have := ih (i + 1) k
        simp only [commaTotal] at this ⊢
        simp [commaIdxAux, h, List.filter_cons]
        omega
      · have := ih (i + 1) (k + 1)
        simp only [commaTotal] at this ⊢
        simp [commaIdxAux, h, List.filter_cons]
        omega

/-- Rejection path of `parseGPRMC`: fewer than 9 commas means no state
change. -/
theorem parseGPRMC_short (nmea : List Char) (g : GPSData)
    (h : commaTotal nmea < 9) : parseGPRMC nmea g = g := by
  unfold parseGPRMC
  rw [if_pos]
  have := commaIdxAux_length_le nmea 0 12
  simp only [commaIdx]
  omega

/-- Rejection path of `parseGPGGA`: fewer than 8 commas means no state
change. -/
theorem parseGPGGA_short (nmea : List Char) (sc : ℤ)
    (h : commaTotal nmea < 8) : parseGPGGA nmea sc = sc := by
  unfold parseGPGGA
  rw [if_pos]
  have := commaIdxAux_length_le nmea 0 15
  simp only [commaIdx]
  omega

/-- `parseGPRMC` never writes the `heading` field. -/
theorem parseGPRMC_heading_eq (nmea : List Char) (g : GPSData) :
    (parseGPRMC nmea g).heading = g.heading := by
  simp only [parseGPRMC]
  split_ifs <;> rfl

/-- C1: a GPRMC sentence that passes the 9-comma field-count check but
whose validity field is not `A` only clears `hasFix`: latitude,
longitude, speed and heading keep their prior values. -/
theorem parseGPRMC_invalid_fix_frame (nmea : List Char) (g : GPSData)
    (h9 : 9 ≤ (commaIdx nmea 12).length)
    (hA : rmcStatus nmea ≠ ['A']) :
    parseGPRMC nmea g = { g with fix := false } := by
  unfold parseGPRMC
  rw [if_neg (by omega), if_pos hA]

/-- Witness for C1: the void-flag sentence applied to a state with
distinctive values flips only `fix`. -/
theorem parseGPRMC_invalid_fix_frame_witness :
    parseGPRMC rmcInvalidLine gTest = { gTest with fix := false } :=
  parseGPRMC_invalid_fix_frame rmcInvalidLine gTest (by decide) (by decide)

/-- C2: the parser is total (the functions below are total Lean
definitions over arbitrary character lists), and a sentence with fewer
commas than the minimum field count (9 for GPRMC, 8 for GPGGA) is
discarded with zero mutation of the GPS record and the satellite count,
whichever way `readGPS` dispatches it. -/
theorem parser_total_short_no_mutation (line : List Char) (g : GPSData)
    (sc : ℤ) (st : SysState) :
    (commaTotal line < 9 → parseGPRMC line g = g) ∧
    (commaTotal line < 8 → parseGPGGA line sc = sc) ∧
    (commaTotal line < 8 → processLine line st = st) := by
  refine ⟨fun h => parseGPRMC_short line g h,
    fun h => parseGPGGA_short line sc h, fun h => ?_⟩
  unfold processLine
  split_ifs
  · rw [parseGPRMC_short line st.gps (by omega)]
  · rw [parseGPGGA_short line st.satelliteCount h]
  · rfl

/-- Witness for C2: a delimiter-free garbage line mutates nothing. -/
theorem parser_total_short_no_mutation_witness :
    parseGPRMC garbageLine gTest = gTest ∧
    parseGPGGA garbageLine 7 = 7 ∧
    processLine garbageLine ⟨gTest, 7, 42, ConnState.Connected⟩ =
      ⟨gTest, 7, 42, ConnState.Connected⟩ := by
  have h := parser_total_short_no_mutation garbageLine gTest 7
    ⟨gTest, 7, 42, ConnState.Connected⟩
  exact ⟨h.1 (by decide), h.2.1 (by decide), h.2.2 (by decide)⟩

/-- C9: no parsing operation ever writes `heading`: processing any line
leaves the heading of the GPS record exactly as it was. -/
theorem heading_never_written (line : List Char) (st : SysState) :
    (processLine line st).gps.heading = st.gps.heading := by
  unfold processLine
  split_ifs
  · exact parseGPRMC_heading_eq line st.gps
  · rfl
  · rfl

/-- C10: a GPRMC sentence that passes the field-count check and carries
validity flag `A` sets `hasFix` even when the latitude, longitude or
speed fields are empty; each empty field keeps its prior value. -/
theorem parseGPRMC_valid_fix_empty_fields (nmea : List Char) (g : GPSData)
    (h9 : 9 ≤ (commaIdx nmea 12).length)
    (hA : rmcStatus nmea = ['A']) :
    (parseGPRMC nmea g).fix = true ∧
    (rmcLat nmea = [] → (parseGPRMC nmea g).latitude = g.latitude) ∧
    (rmcLon nmea = [] → (parseGPRMC nmea g).longitude = g.longitude) ∧
    (rmcSpeed nmea = [] → (parseGPRMC nmea g).speed = g.speed) := by
  unfold parseGPRMC
  rw [if_neg (by omega), if_neg (by simp [hA])]
  refine ⟨?_, fun hl => ?_, fun hl => ?_, fun hl => ?_⟩
  · split_ifs <;> rfl
  · split_ifs <;> first | rfl | exact absurd hl ‹rmcLat nmea ≠ []›
  · split_ifs <;> first | rfl | exact absurd hl ‹rmcLon nmea ≠ []›
  · split_ifs <;> first | rfl | exact absurd hl ‹rmcSpeed nmea ≠ []›

/-- Witness for C10: an `A`-flag sentence with all numeric fields empty
reports a fix while every numeric field stays stale. -/
theorem parseGPRMC_valid_fix_empty_fields_witness :
    (parseGPRMC rmcEmptyFieldsLine gTest).fix = true ∧
    (parseGPRMC rmcEmptyFieldsLine gTest).latitude = gTest.latitude ∧
    (parseGPRMC rmcEmptyFieldsLine gTest).longitude = gTest.longitude ∧
    (parseGPRMC rmcEmptyFieldsLine gTest).speed = gTest.speed := by
  have h := parseGPRMC_valid_fix_empty_fields rmcEmptyFieldsLine gTest
    (by decide) (by decide)
  exact ⟨h.1, h.2.1 (by decide), h.2.2.1 (by decide), h.2.2.2 (by decide)⟩

/-- For a non-negative degrees-minutes value the truncating C cast agrees
with the mathematical floor. -/
theorem degMinToDeg_eq_floor (v : ℚ) (hv : 0 ≤ v) :
    degMinToDeg v = (⌊v / 100⌋ : ℚ) + (v - 100 * (⌊v / 100⌋ : ℚ)) / 60 := by
  unfold degMinToDeg truncQ
  rw [if_pos (div_nonneg hv (by norm_num))]
  ring

/-- C3: on a valid fix with a non-empty latitude (resp. longitude) field
of value `v ≥ 0`, the stored decimal degrees are
`floor(v/100) + (v - 100*floor(v/100))/60`, negated exactly when the
hemisphere field is `S` (resp. `W`); any other hemisphere field, the
empty one included, leaves the sign. -/
theorem parseGPRMC_deg_min_conversion (nmea : List Char) (g : GPSData)
    (h9 : 9 ≤ (commaIdx nmea 12).length)
    (hA : rmcStatus nmea = ['A']) :
    (rmcLat nmea ≠ [] → 0 ≤ toFloat (rmcLat nmea) →
      (parseGPRMC nmea g).latitude =
        (if rmcLatHemi nmea = ['S'] then -1 else 1) *
          ((⌊toFloat (rmcLat nmea) / 100⌋ : ℚ) +
            (toFloat (rmcLat nmea) - 100 * (⌊toFloat (rmcLat nmea) / 100⌋ : ℚ)) / 60)) ∧
    (rmcLon nmea ≠ [] → 0 ≤ toFloat (rmcLon nmea) →
      (parseGPRMC nmea g).longitude =
        (if rmcLonHemi nmea = ['W'] then -1 else 1) *
          ((⌊toFloat (rmcLon nmea) / 100⌋ : ℚ) +
            (toFloat (rmcLon nmea) - 100 * (⌊toFloat (rmcLon nmea) / 100⌋ : ℚ)) / 60)) := by
  unfold parseGPRMC
  rw [if_neg (by omega), if_neg (by simp [hA])]
  constructor
  · intro hlat hv
    split_ifs <;>
      first
      | exact absurd hlat ‹¬ rmcLat nmea ≠ []›
      | (dsimp only; rw [degMinToDeg_eq_floor _ hv]; ring)
  · intro hlon hv
    split_ifs <;>
      first
      | exact absurd hlon ‹¬ rmcLon nmea ≠ []›
      | (dsimp only; rw [degMinToDeg_eq_floor _ hv]; ring)

/-- Witness for C3: the spec's worked example, latitude field `4807.038`
with hemisphere `N`, is stored as exactly `48.1173` decimal degrees, and
longitude `01131.000,E` as `11 + 31/60`. -/
theorem parseGPRMC_deg_min_conversion_witness :
    (parseGPRMC rmcFullLine gpsData0).latitude =
      (if rmcLatHemi rmcFullLine = ['S'] then -1 else 1) *
        ((⌊toFloat (rmcLat rmcFullLine) / 100⌋ : ℚ) +
          (toFloat (rmcLat rmcFullLine) -
            100 * (⌊toFloat (rmcLat rmcFullLine) / 100⌋ : ℚ)) / 60) ∧
    (parseGPRMC rmcFullLine gpsData0).latitude = 481173 / 10000 ∧
    (parseGPRMC rmcFullLine gpsData0).longitude = 11 + (31 : ℚ) / 60 :=
  ⟨(parseGPRMC_deg_min_conversion rmcFullLine gpsData0 (by decide)
      (by decide)).1 (by decide) (by decide),
    by decide, by decide⟩

/-- C4: on a valid fix with a non-empty speed field, the stored speed is
the field's value in knots times `1.852` km/h per knot. -/
theorem parseGPRMC_speed_conversion (nmea : List Char) (g : GPSData)
    (h9 : 9 ≤ (commaIdx nmea 12).length)
    (hA : rmcStatus nmea = ['A'])
    (hsp : rmcSpeed nmea ≠ []) :
    (parseGPRMC nmea g).speed = toFloat (rmcSpeed nmea) * (1852 / 1000) := by
  unfold parseGPRMC
  rw [if_neg (by omega), if_neg (by simp [hA])]
  split_ifs <;> rfl

/-- Witness for C4: the spec's worked example, speed field `10.0` knots,
is stored as exactly `18.52` km/h. -/
theorem parseGPRMC_speed_conversion_witness :
    (parseGPRMC rmcFullLine gpsData0).speed =
      toFloat (rmcSpeed rmcFullLine) * (1852 / 1000) ∧
    (parseGPRMC rmcFullLine gpsData0).speed = 1852 / 100 :=
  ⟨parseGPRMC_speed_conversion rmcFullLine gpsData0 (by decide) (by decide)
      (by decide),
    by decide⟩

/-- A line starting with the GPGGA tag cannot also start with the GPRMC
tag. -/
theorem gga_not_gprmc (line : List Char)
    (h : gpggaTag.isPrefixOf line = true) :
    ¬ gprmcTag.isPrefixOf line = true := by
  intro hc
  have h1 := List.isPrefixOf_iff_prefix.mp h
  have h2 := List.isPrefixOf_iff_prefix.mp hc
  have h3 := List.prefix_of_prefix_length_le h2 h1 (by decide)
  have h4 := List.IsPrefix.eq_of_length h3 (by decide)
  exact absurd h4 (by decide)

/-- C5: for a GPGGA sentence, the satellite count is read from the
seventh comma-delimited field and stored with no dependence on the GPS
fix (the whole GPS record passes through untouched); with fewer than 8
commas the sentence is ignored. -/
theorem parseGPGGA_satellite_count (line : List Char) (sc : ℤ)
    (st : SysState) (hpre : gpggaTag.isPrefixOf line = true) :
    (8 ≤ (commaIdx line 15).length → ggaSats line ≠ [] →
      parseGPGGA line sc = toInt (ggaSats line)) ∧
    (commaTotal line < 8 → parseGPGGA line sc = sc) ∧
    processLine line st =
      { st with satelliteCount := parseGPGGA line st.satelliteCount } := by
  refine ⟨fun h8 hs => ?_, fun h => parseGPGGA_short line sc h, ?_⟩
  · unfold parseGPGGA
    rw [if_neg (by omega), if_pos hs]
  · unfold processLine
    rw [if_neg (gga_not_gprmc line hpre), if_pos hpre]

/-- Witness for C5: a complete GPGGA sentence stores 8 satellites into
the system state without touching the GPS record, and a truncated one
changes nothing. -/
theorem parseGPGGA_satellite_count_witness :
    parseGPGGA ggaFullLine 3 = toInt (ggaSats ggaFullLine) ∧
    parseGPGGA ggaFullLine 3 = 8 ∧
    parseGPGGA ggaShortLine 3 = 3 ∧
    processLine ggaFullLine ⟨gTest, 3, 42, ConnState.Connected⟩ =
      ⟨gTest, 8, 42, ConnState.Connected⟩ := by
  have h1 := parseGPGGA_satellite_count ggaFullLine 3
    ⟨gTest, 3, 42, ConnState.Connected⟩ (by decide)
  have h2 := parseGPGGA_satellite_count ggaShortLine 3
    ⟨gTest, 3, 42, ConnState.Connected⟩ (by decide)
  refine ⟨h1.1 (by decide) (by decide), by decide, h2.2.1 (by decide), ?_⟩
  rw [h1.2.2]
  decide

/-- C6: the scheduler fires exactly when at least `SEND_INTERVAL` ms of
device uptime have elapsed since the previous fire, and then emits a
frame carrying the current (possibly stale) latitude, longitude, speed
and heading stamped with the uptime, entirely independent of the value
of `hasFix`. -/
theorem loopTick_fires_each_period (st : SysState) (now : ℕ) :
    (SEND_INTERVAL ≤ elapsedMs now st.lastMQTTSend →
      loopTick st now =
        ({ st with lastMQTTSend := now },
          some ⟨st.gps.latitude, st.gps.longitude, st.gps.speed,
            st.gps.heading, now⟩)) ∧
    (elapsedMs now st.lastMQTTSend < SEND_INTERVAL →
      loopTick st now = (st, none)) ∧
    (∀ b : Bool,
      telemetryFrame { st.gps with fix := b } now =
        telemetryFrame st.gps now) := by
  refine ⟨fun h => ?_, fun h => ?_, fun b => rfl⟩
  · unfold loopTick
    rw [if_pos h]
    rfl
  · unfold loopTick
    rw [if_neg (by omega)]

/-- Witness for C6: with the last fire at uptime 0, the tick at 5000 ms
emits the stale frame even though `fix` is merely the prior value, and
the tick at 4999 ms emits nothing. -/
theorem loopTick_fires_each_period_witness :
    loopTick ⟨gTest, 8, 0, ConnState.Connected⟩ 5000 =
      ({ gps := gTest, satelliteCount := 8, lastMQTTSend := 5000,
          conn := ConnState.Connected }, some ⟨1, 2, 3, 4, 5000⟩) ∧
    loopTick ⟨gTest, 8, 0, ConnState.Connected⟩ 4999 =
      (⟨gTest, 8, 0, ConnState.Connected⟩, none) := by
  have h1 := loopTick_fires_each_period ⟨gTest, 8, 0, ConnState.Connected⟩ 5000
  have h2 := loopTick_fires_each_period ⟨gTest, 8, 0, ConnState.Connected⟩ 4999
  exact ⟨h1.1 (by decide), h2.2.1 (by decide)⟩

/-- C7: for every number `n` of consecutive failed handshakes, the
transport is observed `Connecting` after each of the `n` failures
(having waited the fixed 2000 ms delay after each one, `2000 * n` in
total) and transitions to `Connected` exactly at the first subsequent
success; `n` is unbounded. -/
theorem reconnect_retries_until_success (n : ℕ) (rest : List Bool) :
    reconnectTrace (List.replicate n false ++ true :: rest) =
      List.replicate n ConnState.Connecting ++ [ConnState.Connected] ∧
    reconnectDelay (List.replicate n false ++ true :: rest) = 2000 * n ∧
    reconnectResult (List.replicate n false ++ true :: rest) =
      ConnState.Connected := by
  induction n with
  | zero => exact ⟨rfl, rfl, rfl⟩
  | succ k ih =>
    refine ⟨?_, ?_, ?_⟩
    · simpa [List.replicate_succ, reconnectTrace] using ih.1
    · simp [List.replicate_succ, reconnectDelay, ih.2.1]
      ring
    · simpa [List.replicate_succ, reconnectResult] using ih.2.2

/-- C8 counterexample: a publish attempted while the transport is
`Disconnected` does not move it to `Connecting` — `sendTelemetry`
initiates no reconnect. -/
theorem publish_disconnected_no_reconnect_cex :
    ¬ (sendTelemetry gpsData0 ConnState.Disconnected 0).2 =
      ConnState.Connecting := by
  decide

/-- C8 (amended): a publish attempted while not connected leaves the
connection state exactly as it was (the reconnect it would need is never
initiated there); it is the start of each control-loop iteration that
triggers the reconnect sequence whenever the transport is not
connected. -/
theorem loop_start_reconnect (c : ConnState)
    (h : c ≠ ConnState.Connected) (g : GPSData) (now : ℕ)
    (outs : List Bool) :
    (sendTelemetry g c now).2 = c ∧
    loopConnStart c outs = reconnectResult outs := by
  refine ⟨rfl, ?_⟩
  unfold loopConnStart
  rw [if_neg h]

/-- Witness for C8 (amended): from `Disconnected`, a publish changes
nothing while the loop head hands control to the reconnect sequence. -/
theorem loop_start_reconnect_witness :
    (sendTelemetry gpsData0 ConnState.Disconnected 0).2 =
      ConnState.Disconnected ∧
    loopConnStart ConnState.Disconnected [false, true] =
      reconnectResult [false, true] :=
  loop_start_reconnect ConnState.Disconnected (by decide) gpsData0 0
    [false, true]
